import Mathlib

/-!
Shallow embedding of the authentication/authorization core of the
TaxCollectionSystem backend (src/auth/auth.py, src/auth/authcheck.py,
src/auth/authconstants.py, src/controller/user.py, src/controller/token.py,
src/objects/user.py, src/objects/tokens.py, src/service/constants.py).

Modelling conventions:
- Time is UTC seconds since the epoch, as an `Int` (the `exp` claim is an
  integer timestamp after JWT serialization; `timedelta` values are converted
  to seconds).
- JWT claim payloads (Python dicts) are association lists from string keys to
  `JValue` (a JSON-like value type).  Dict update preserves insertion order
  and overwrites existing keys, which `setClaim` mirrors.
- A signed JWT is modelled as the pair of its claims and the secret it was
  signed with; signature verification succeeds exactly when the verifying
  secret equals the signing secret.  Strings that are not JWTs at all are
  `Token.malformed`.
- The `jose.jwt.decode` call in `__decodeToken` is modelled faithfully to the
  library defaults: besides the signature it validates the registered claims
  present in the payload (exp/nbf with strict comparisons against now,
  iat must be numeric, sub/jti must be strings, and an aud claim without an
  expected audience is rejected).  All of these failures raise `JWTError`
  subclasses, which `__decodeToken` turns into `None`.
- Randomness (the uuid4 jti, the bcrypt salt) is passed in explicitly as an
  argument.
- Raised Python exceptions are an `Except` error value (`AuthError`).
-/

namespace TaxBackend

/-- JSON-like values carried by JWT claims (src/auth/auth.py payload dicts). -/
inductive JValue where
  | null
  | str (s : String)
  | int (n : Int)
  | obj (fields : List (String × JValue))

/-- A JWT claims payload: a Python dict from claim names to values. -/
abbrev Claims := List (String × JValue)

/-- Python dict lookup `payload.get(key)` (returns None when absent). -/
def lookupClaim (c : Claims) (k : String) : Option JValue :=
  match c with
  | [] => none
  | (k₂, v) :: rest => if k₂ = k then some v else lookupClaim rest k

/-- Python dict update `d[key] = value`: overwrite in place, else append. -/
def setClaim (c : Claims) (k : String) (v : JValue) : Claims :=
  match c with
  | [] => [(k, v)]
  | (k₂, v₂) :: rest =>
      if k₂ = k then (k, v) :: rest else (k₂, v₂) :: setClaim rest k v

/- Constants from src/auth/authconstants.py and src/service/constants.py. -/

def ACCESS_TOKEN_EXPIRE_MINUTES : Int := 30

def ALGORITHM : String := "HS256"

def REFRESH_SECRET_KEY : String := "your_refresh_secret_key"

def REFRESH_TOKEN_EXPIRE_DAYS : Int := 7

def ACCESS_SECRET_KEY : String := "your_secret_key"

def ACCESS_TOKEN_TYPE : String := "ACCESS"

def REFRESH_TOKEN_TYPE : String := "REFRESH"

def COULD_NOT_VALIDATE_CREDENTIALS : String := "Could not validate credentials"

def TOKEN_EXPIRED : String := "Token expired"

def INVALID_CREDENTIALS : String := "Incorrect username or password"

def USER_NOT_FOUND : String := "User not found"

def INVALID_TOKEN : String := "Invalid token"

def INVALID_REFRESH_TOKEN : String := "Invalid refresh token"

def LOGGED_OUT_SUCCESSFULLY : String := "Logged out successfully"

def INSUFFICIENT_PERMISSIONS : String := "Not enough permissions"

def USER_ROLE_ADMIN : String := "ADMIN"

def USER_ROLE_COLLECTOR : String := "COLLECTOR"

/-- A bearer token string, as seen by the code: either a JWT signed (HS256)
with some secret, or a string that is not a well-formed JWT at all. -/
inductive Token where
  | signed (claims : Claims) (secret : String)
  | malformed (raw : String)

/-- The claims carried inside a token (empty for a malformed string).
Model-level projection used to state properties about issued tokens. -/
def tokenClaims (t : Token) : Claims :=
  match t with
  | .signed c _ => c
  | .malformed _ => []

/-- Errors raised by the Python code, as typed values.
`http` is fastapi.HTTPException (status code and detail); the remaining
constructors are the untyped Python exceptions the code can let escape:
AttributeError (attribute access on None), TypeError
(datetime.fromtimestamp on a non-numeric value), passlib UnknownHashError
(verifying against a string that is not a recognized hash), and SQLAlchemy
IntegrityError (primary-key constraint violation on insert). -/
inductive AuthError where
  | http (statusCode : Nat) (detail : String)
  | attributeError (msg : String)
  | typeError
  | unknownHashError
  | integrityError

/-- TokenManagement.__encodeToken: copy the payload, set exp := now + delta
and a fresh jti (the uuid4 value is an explicit argument), sign with the
given secret.  Python `expiresDelta or timedelta(minutes=30)` falls back to
the default when expiresDelta is None or a zero timedelta (falsy). -/
def encodeToken (payload : Claims) (SECRET_KEY : String)
    (expiresDelta : Option Int) (now : Int) (jti : String) : Token :=
  let delta : Int :=
    match expiresDelta with
    | some d => if d = 0 then ACCESS_TOKEN_EXPIRE_MINUTES * 60 else d
    | none => ACCESS_TOKEN_EXPIRE_MINUTES * 60
  Token.signed
    (setClaim (setClaim payload "exp" (JValue.int (now + delta)))
      "jti" (JValue.str jti))
    SECRET_KEY

/-- TokenManagement.encodeAuthToken: encode with the access secret. -/
def encodeAuthToken (payload : Claims) (expiresDelta : Option Int)
    (now : Int) (jti : String) : Token :=
  encodeToken payload ACCESS_SECRET_KEY expiresDelta now jti

/-- TokenManagement.encodeRefreshToken: encode with the refresh secret. -/
def encodeRefreshToken (payload : Claims) (expiresDelta : Option Int)
    (now : Int) (jti : String) : Token :=
  encodeToken payload REFRESH_SECRET_KEY expiresDelta now jti

/-- The registered-claim validation jose.jwt.decode performs by default
(verify_exp/verify_nbf/verify_iat/verify_aud/verify_sub/verify_jti all
default to True, leeway 0): exp fails iff exp < now (strict), nbf fails iff
now < nbf, iat must be numeric if present, an aud claim is rejected because
no expected audience is passed, sub and jti must be strings if present. -/
def joseClaimsOk (c : Claims) (now : Int) : Bool :=
  (match lookupClaim c "iat" with
   | none => true
   | some (JValue.int _) => true
   | some _ => false) &&
  (match lookupClaim c "nbf" with
   | none => true
   | some (JValue.int n) => decide (n ≤ now)
   | some _ => false) &&
  (match lookupClaim c "exp" with
   | none => true
   | some (JValue.int e) => decide (now ≤ e)
   | some _ => false) &&
  (match lookupClaim c "aud" with
   | none => true
   | some _ => false) &&
  (match lookupClaim c "sub" with
   | none => true
   | some (JValue.str _) => true
   | some _ => false) &&
  (match lookupClaim c "jti" with
   | none => true
   | some (JValue.str _) => true
   | some _ => false)

/-- TokenManagement.__decodeToken: jose.jwt.decode(token, SECRET_KEY,
algorithms=[ALGORITHM]) wrapped in `except JWTError: return None`.
Signature verification plus the default registered-claim validation; any
failure (including an expired exp) raises a JWTError subclass, so the
function returns None. -/
def decodeToken (t : Token) (SECRET_KEY : String) (now : Int) : Option Claims :=
  match t with
  | .malformed _ => none
  | .signed c s =>
      if s = SECRET_KEY then (if joseClaimsOk c now then some c else none)
      else none

/-- TokenManagement.decodeAuthToken. -/
def decodeAuthToken (t : Token) (now : Int) : Option Claims :=
  decodeToken t ACCESS_SECRET_KEY now

/-- TokenManagement.decodeRefreshToken. -/
def decodeRefreshToken (t : Token) (now : Int) : Option Claims :=
  decodeToken t REFRESH_SECRET_KEY now

/-- TokenManagement.tokenValidation: decode according to the token type
(returning None — `Except.ok none` — for an unsupported type), raise the
credentials exception if decoding failed, then the explicit expiry check
(`if exp and fromtimestamp(exp) < now`: skipped when exp is absent, JSON
null, or the falsy integer 0; a non-numeric exp would raise TypeError),
then raise the credentials exception if the sub claim is missing (a JSON
null deserializes to Python None and also fails the `is None` check). -/
def tokenValidation (t : Token) (tokenType : String) (now : Int) :
    Except AuthError (Option Claims) :=
  let credentialsException := AuthError.http 401 COULD_NOT_VALIDATE_CREDENTIALS
  let payloadStep : Option (Option Claims) :=
    if tokenType = ACCESS_TOKEN_TYPE then some (decodeAuthToken t now)
    else if tokenType = REFRESH_TOKEN_TYPE then some (decodeRefreshToken t now)
    else none
  match payloadStep with
  | none => Except.ok none
  | some none => Except.error credentialsException
  | some (some claims) =>
      let usernameCheck : Except AuthError (Option Claims) :=
        match lookupClaim claims "sub" with
        | none => Except.error credentialsException
        | some JValue.null => Except.error credentialsException
        | some _ => Except.ok (some claims)
      match lookupClaim claims "exp" with
      | none => usernameCheck
      | some JValue.null => usernameCheck
      | some (JValue.int e) =>
          if e ≠ 0 ∧ e < now then
            Except.error (AuthError.http 401 TOKEN_EXPIRED)
          else usernameCheck
      | some _ => Except.error AuthError.typeError

/-- src/objects/user.py User (table model): name, phone, username (primary
key), optional userRole (a comma-delimited string of role labels, declared
`str | None`), and the stored password string. -/
structure User where
  name : String
  phone : Int
  username : String
  userRole : Option String
  password : String

/-- src/objects/user.py UserPOSTRequest: the registration request body. -/
structure UserPOSTRequest where
  name : String
  phone : Int
  username : String
  userRole : Option String
  password : String

/-- src/objects/user.py UserAuthSuccess: the login response model. -/
structure UserAuthSuccess where
  name : String
  phone : Int
  username : String
  userRole : Option String
  access_token : Token
  refresh_token : Token
  token_type : String

/-- The response dict of refreshToken: new access token plus token type. -/
structure RefreshResponse where
  access_token : Token
  token_type : String

/-- The persistent store: the user table (src/objects/user.py) and the
revokedtoken table (src/objects/tokens.py), whose single column jti is the
primary key. -/
structure DB where
  users : List User
  revokedTokens : List String

/-- src/auth/authcheck.py hashPassword: pwd_context.hash with the bcrypt
scheme.  The random per-call salt is an explicit argument; the model hash
string carries the bcrypt marker, the salt, and the password material, so
that verification against the embedded salt can be recomputed. -/
def hashPassword (password : String) (salt : String) : String :=
  "$2b$12$" ++ salt ++ "$" ++ password

/-- Whether a stored string is a bcrypt-family hash (has the modular-crypt
marker passlib recognizes) rather than plaintext. -/
def isBcryptHash (s : String) : Bool :=
  match s.toList with
  | '$' :: '2' :: 'b' :: '$' :: '1' :: '2' :: '$' :: _ => true
  | _ => false

/-- Strip the bcrypt marker from a stored hash (None if not a bcrypt hash,
in which case passlib raises UnknownHashError). -/
def stripHashMarker (cs : List Char) : Option (List Char) :=
  match cs with
  | '$' :: '2' :: 'b' :: '$' :: '1' :: '2' :: '$' :: rest => some rest
  | _ => none

/-- Split a character list at its first dollar sign (salt, payload). -/
def splitAtDollar (cs : List Char) : Option (List Char × List Char) :=
  match cs with
  | [] => none
  | '$' :: rest => some ([], rest)
  | c :: rest =>
      match splitAtDollar rest with
      | some (salt, payload) => some (c :: salt, payload)
      | none => none

/-- src/auth/authcheck.py verifyPassword: pwd_context.verify.  Recomputes
the hash of the plaintext with the salt embedded in the stored hash and
compares; returns False on mismatch.  Raises UnknownHashError when the
stored string is not a recognized hash (e.g. a plaintext password). -/
def verifyPassword (plain_password : String) (hashed_password : String) :
    Except AuthError Bool :=
  match stripHashMarker hashed_password.toList with
  | none => Except.error AuthError.unknownHashError
  | some rest =>
      match splitAtDollar rest with
      | none => Except.error AuthError.unknownHashError
      | some (_, stored) => Except.ok (decide (stored = plain_password.toList))

/-- src/controller/user.py getUserByUsername: db.get(User, username), a
primary-key lookup in the user table. -/
def getUserByUsername (username : String) (db : DB) : Option User :=
  db.users.find? (fun u => u.username == username)

/-- src/controller/user.py register: reject if the username exists, else
store User(**userDetails.model_dump()).  The password field is copied
verbatim into the table row: hashPassword is imported by the module but
never called on this path. -/
def register (userDetails : UserPOSTRequest) (db : DB) :
    Except AuthError (User × DB) :=
  match getUserByUsername userDetails.username db with
  | some _ =>
      Except.error (AuthError.http 400 "Username already registered")
  | none =>
      let user : User :=
        { name := userDetails.name
          phone := userDetails.phone
          username := userDetails.username
          userRole := userDetails.userRole
          password := userDetails.password }
      Except.ok (user, { db with users := db.users ++ [user] })

/-- src/controller/token.py addToken: db.add(token); db.commit().  The jti
column is the primary key, so committing an insert with a jti already in
the table raises IntegrityError (there is no upsert). -/
def addToken (jti : String) (db : DB) : Except AuthError DB :=
  if jti ∈ db.revokedTokens then Except.error AuthError.integrityError
  else Except.ok { db with revokedTokens := db.revokedTokens ++ [jti] }

/-- src/auth/auth.py authenticateUser: look the user up; short-circuit to
None when absent, otherwise verify the password (None when it fails). -/
def authenticateUser (username : String) (password : String) (db : DB) :
    Except AuthError (Option User) :=
  match getUserByUsername username db with
  | none => Except.ok none
  | some user =>
      match verifyPassword password user.password with
      | Except.error e => Except.error e
      | Except.ok true => Except.ok (some user)
      | Except.ok false => Except.ok none

/-- The JSON value of user.userRole (None becomes JSON null). -/
def roleValue (r : Option String) : JValue :=
  match r with
  | none => JValue.null
  | some s => JValue.str s

/-- src/auth/auth.py login: authenticate, else raise 401 INVALID_CREDENTIALS;
on success build the access-token payload with sub and the context object
(user key, phone, roles) and a refresh-token payload with sub only, and
encode both (jti values are the explicit uuid arguments). -/
def login (username : String) (password : String) (db : DB) (now : Int)
    (jtiAccess : String) (jtiRefresh : String) :
    Except AuthError UserAuthSuccess :=
  match authenticateUser username password db with
  | Except.error e => Except.error e
  | Except.ok none =>
      Except.error (AuthError.http 401 INVALID_CREDENTIALS)
  | Except.ok (some user) =>
      let tokenData : Claims :=
        [ ("sub", JValue.str user.username),
          ("context", JValue.obj
            [ ("user", JValue.obj
                [ ("key", JValue.str user.username),
                  ("phone", JValue.int user.phone) ]),
              ("roles", roleValue user.userRole) ]) ]
      let accessToken :=
        encodeAuthToken tokenData (some (ACCESS_TOKEN_EXPIRE_MINUTES * 60))
          now jtiAccess
      let refreshTok :=
        encodeRefreshToken [ ("sub", JValue.str user.username) ]
          (some (REFRESH_TOKEN_EXPIRE_DAYS * 86400)) now jtiRefresh
      Except.ok
        { username := user.username
          name := user.name
          access_token := accessToken
          phone := user.phone
          refresh_token := refreshTok
          userRole := user.userRole
          token_type := "Bearer" }

/-- src/auth/auth.py getCurrentUser: validate as an access token, look the
user up by the sub claim, raise the credentials exception when absent.
The revokedtoken table is never consulted on this path.  (If validation
returned None — impossible for the access token type — payload.get would
raise AttributeError on None.) -/
def getCurrentUser (t : Token) (db : DB) (now : Int) :
    Except AuthError User :=
  match tokenValidation t ACCESS_TOKEN_TYPE now with
  | Except.error e => Except.error e
  | Except.ok none =>
      Except.error (AuthError.attributeError "NoneType object has no attribute get")
  | Except.ok (some claims) =>
      let userFound : Option User :=
        match lookupClaim claims "sub" with
        | some (JValue.str s) => getUserByUsername s db
        | _ => none
      match userFound with
      | none => Except.error (AuthError.http 401 COULD_NOT_VALIDATE_CREDENTIALS)
      | some u => Except.ok u

/-- src/auth/auth.py refreshToken: validate as a refresh token (falsy payload
raises 401 INVALID_REFRESH_TOKEN), re-resolve the user by sub (absent user
raises 401 USER_NOT_FOUND), then encode a new access token whose payload
contains only the sub claim. -/
def refreshToken (refresh_token : Token) (db : DB) (now : Int)
    (newJti : String) : Except AuthError RefreshResponse :=
  match tokenValidation refresh_token REFRESH_TOKEN_TYPE now with
  | Except.error e => Except.error e
  | Except.ok none => Except.error (AuthError.http 401 INVALID_REFRESH_TOKEN)
  | Except.ok (some claims) =>
      if claims.isEmpty then
        Except.error (AuthError.http 401 INVALID_REFRESH_TOKEN)
      else
        let userFound : Option User :=
          match lookupClaim claims "sub" with
          | some (JValue.str s) => getUserByUsername s db
          | _ => none
        match userFound with
        | none => Except.error (AuthError.http 401 USER_NOT_FOUND)
        | some user =>
            Except.ok
              { access_token :=
                  encodeAuthToken [ ("sub", JValue.str user.username) ]
                    (some (ACCESS_TOKEN_EXPIRE_MINUTES * 60)) now newJti
                token_type := "Bearer" }

/-- src/auth/auth.py logout: validate as an access token (falsy payload
raises 401 INVALID_TOKEN), read the jti claim and insert it into the
revokedtoken table via addToken.  A duplicate jti makes the insert raise
IntegrityError; a missing jti would insert a NULL primary key, which also
raises IntegrityError (a non-string jti cannot come out of a validated
token, since the decoder requires jti to be a string). -/
def logout (t : Token) (db : DB) (now : Int) :
    Except AuthError (String × DB) :=
  match tokenValidation t ACCESS_TOKEN_TYPE now with
  | Except.error e => Except.error e
  | Except.ok none => Except.error (AuthError.http 401 INVALID_TOKEN)
  | Except.ok (some claims) =>
      if claims.isEmpty then
        Except.error (AuthError.http 401 INVALID_TOKEN)
      else
        match lookupClaim claims "jti" with
        | some (JValue.str j) =>
            match addToken j db with
            | Except.error e => Except.error e
            | Except.ok db₂ => Except.ok (LOGGED_OUT_SUCCESSFULLY, db₂)
        | _ => Except.error AuthError.integrityError

/-- Python str.split with the separator "," (src/auth/auth.py line 402):
empty string gives [""], trailing separator gives a trailing "". -/
def splitCommaAux (cs : List Char) (cur : List Char) : List (List Char) :=
  match cs with
  | [] => [cur.reverse]
  | c :: rest =>
      if c = ',' then cur.reverse :: splitCommaAux rest []
      else splitCommaAux rest (c :: cur)

/-- Python user.userRole.split(","). -/
def splitComma (s : String) : List String :=
  (splitCommaAux s.toList []).map (fun cs => String.mk cs)

/-- src/auth/auth.py getCurrentAdmin (given the already-resolved user):
user.userRole.split(",") — an AttributeError when userRole is None — then
403 INSUFFICIENT_PERMISSIONS unless the ADMIN label is among the parts. -/
def getCurrentAdmin (user : User) : Except AuthError User :=
  match user.userRole with
  | none =>
      Except.error (AuthError.attributeError "NoneType object has no attribute split")
  | some role =>
      if USER_ROLE_ADMIN ∈ splitComma role then Except.ok user
      else Except.error (AuthError.http 403 INSUFFICIENT_PERMISSIONS)

/-- Seed admin user used by the concrete scenarios (mirrors the test
fixture src/tests/conftest.py createTestData: username admin, password
admin hashed with a bcrypt salt, roles ADMIN,COLLECTOR). -/
def adminUser : User :=
  { name := "Admin"
    phone := 1234567890
    username := "admin"
    userRole := some "ADMIN,COLLECTOR"
    password := hashPassword "admin" "s1" }

/-- A store holding only the seed admin user and no revoked tokens. -/
def dbSeed : DB := { users := [adminUser], revokedTokens := [] }

/-- Looking up the key just set by a dict update yields the new value. -/
theorem lookupClaim_setClaim_self (c : Claims) (k : String) (v : JValue) :
    lookupClaim (setClaim c k v) k = some v := by
  induction c with
  | nil => simp [setClaim, lookupClaim]
  | cons p rest ih =>
      obtain ⟨k₂, v₂⟩ := p
      by_cases h : k₂ = k
      · simp [setClaim, h, lookupClaim]
      · simp [setClaim, h, lookupClaim, ih]

/-- A dict update leaves the other keys unchanged. -/
theorem lookupClaim_setClaim_ne (c : Claims) (k k₂ : String) (v : JValue)
    (h : k₂ ≠ k) : lookupClaim (setClaim c k v) k₂ = lookupClaim c k₂ := by
  induction c with
  | nil => simp [setClaim, lookupClaim, Ne.symm h]
  | cons p rest ih =>
      obtain ⟨k₃, v₃⟩ := p
      by_cases h₃ : k₃ = k
      · subst h₃
        simp [setClaim, lookupClaim, Ne.symm h]
      · simp [setClaim, h₃, lookupClaim, ih]

/-- Claim C1: the spec demands that resolving the principal from an access
token whose jti is in the revocation store fails.  The code never consults
the revokedtoken table in getCurrentUser: the result is invariant under the
revocation list, and concretely a freshly issued admin access token still
authenticates after logout has recorded its jti. -/
theorem getCurrentUser_ignores_revocation :
    (∀ (db : DB) (t : Token) (now : Int) (r : List String),
      getCurrentUser t { db with revokedTokens := r } now =
        getCurrentUser t db now) ∧
    ∃ auth db₁,
      login "admin" "admin" dbSeed 100 "jA" "jR" = Except.ok auth ∧
      logout auth.access_token dbSeed 100 =
        Except.ok (LOGGED_OUT_SUCCESSFULLY, db₁) ∧
      db₁.revokedTokens = ["jA"] ∧
      getCurrentUser auth.access_token db₁ 100 = Except.ok adminUser := by
  constructor
  · intro db t now r
    rfl
  · refine ⟨_, _, rfl, rfl, rfl, rfl⟩

/-- Claim C2 counterexample: logout is not idempotent.  After a successful
logout, a second logout with the very same access token hits the duplicate
primary key in the revokedtoken table and raises IntegrityError instead of
returning the success message again. -/
theorem logout_not_idempotent_cex :
    ∃ auth db₁,
      login "admin" "admin" dbSeed 100 "jB" "jS" = Except.ok auth ∧
      logout auth.access_token dbSeed 100 =
        Except.ok (LOGGED_OUT_SUCCESSFULLY, db₁) ∧
      logout auth.access_token db₁ 100 =
        Except.error AuthError.integrityError := by
  refine ⟨_, _, rfl, rfl, rfl⟩

/-- Claim C2 (amended): whenever a logout succeeds, repeating it with the
same token (against the updated store, at the same instant) fails with
IntegrityError from the duplicate-primary-key insert: the revocation insert
is a plain insert, not an upsert. -/
theorem logout_second_call_raises (t : Token) (db : DB) (now : Int)
    (m : String) (db₁ : DB)
    (h : logout t db now = Except.ok (m, db₁)) :
    logout t db₁ now = Except.error AuthError.integrityError := by
  unfold logout at h ⊢
  cases htv : tokenValidation t ACCESS_TOKEN_TYPE now with
  | error e => simp [htv] at h
  | ok payloadOpt =>
    cases payloadOpt with
    | none => simp [htv] at h
    | some claims =>
      simp only [htv] at h ⊢
      by_cases hemp : claims.isEmpty
      · simp [hemp] at h
      · simp only [hemp, Bool.false_eq_true, if_false] at h ⊢
        cases hjti : lookupClaim claims "jti" with
        | none => simp [hjti] at h
        | some jv =>
          cases jv with
          | null => simp [hjti] at h
          | int n => simp [hjti] at h
          | obj fs => simp [hjti] at h
          | str j =>
            simp only [hjti] at h ⊢
            cases hadd : addToken j db with
            | error e => simp [hadd] at h
            | ok db₂ =>
              simp only [hadd] at h
              simp only [Except.ok.injEq, Prod.mk.injEq] at h
              obtain ⟨-, hdb⟩ := h
              subst hdb
              unfold addToken at hadd ⊢
              by_cases hmem : j ∈ db.revokedTokens
              · simp [hmem] at hadd
              · simp only [hmem, if_false] at hadd
                simp only [Except.ok.injEq] at hadd
                subst hadd
                simp

/-- A well-formed access token used to witness the second-logout behaviour. -/
def tokB : Token :=
  Token.signed
    [ ("sub", JValue.str "admin"), ("exp", JValue.int 1900),
      ("jti", JValue.str "jB") ] ACCESS_SECRET_KEY

/-- The empty store. -/
def dbEmpty : DB := { users := [], revokedTokens := [] }

/-- The store after the jti jB has been revoked. -/
def dbJB : DB := { users := [], revokedTokens := ["jB"] }

/-- Witness for the amended C2 theorem at a concrete token and store. -/
theorem logout_second_call_raises_witness :
    logout tokB dbJB 100 = Except.error AuthError.integrityError :=
  logout_second_call_raises tokB dbEmpty 100 LOGGED_OUT_SUCCESSFULLY dbJB rfl

/-- Claim C3 counterexample: the access token minted by refresh does not
embed the authorization context a fresh login embeds.  Concretely, the
login access token for the seeded admin carries a context claim, while the
access token produced by refreshing the very refresh token issued by that
login carries none. -/
theorem refresh_access_token_lacks_context_cex :
    ∃ auth resp,
      login "admin" "admin" dbSeed 100 "jA" "jR" = Except.ok auth ∧
      refreshToken auth.refresh_token dbSeed 150 "jA2" = Except.ok resp ∧
      (lookupClaim (tokenClaims auth.access_token) "context").isSome = true ∧
      (lookupClaim (tokenClaims resp.access_token) "context").isSome = false ∧
      lookupClaim (tokenClaims resp.access_token) "context" ≠
        lookupClaim (tokenClaims auth.access_token) "context" := by
  refine ⟨_, _, rfl, rfl, rfl, rfl, ?_⟩
  intro hcontra
  exact Bool.noConfusion (congrArg Option.isSome hcontra)

/-- Claim C3 (amended): a successful refresh issues a brand-new access token
whose payload contains only the subject claim (plus the injected exp and
jti); the principal is re-resolved from the store, but no role context
(neither a context nor a roles claim) is embedded. -/
theorem refresh_access_token_subject_only (rt : Token) (db : DB) (now : Int)
    (j : String) (resp : RefreshResponse)
    (h : refreshToken rt db now j = Except.ok resp) :
    ∃ u : User,
      getUserByUsername u.username db = some u ∧
      resp.access_token =
        encodeAuthToken [ ("sub", JValue.str u.username) ]
          (some (ACCESS_TOKEN_EXPIRE_MINUTES * 60)) now j ∧
      lookupClaim (tokenClaims resp.access_token) "context" = none ∧
      lookupClaim (tokenClaims resp.access_token) "roles" = none := by
  unfold refreshToken at h
  cases htv : tokenValidation rt REFRESH_TOKEN_TYPE now with
  | error e => simp [htv] at h
  | ok payloadOpt =>
    cases payloadOpt with
    | none => simp [htv] at h
    | some claims =>
      simp only [htv] at h
      by_cases hemp : claims.isEmpty
      · simp [hemp] at h
      · simp only [hemp, Bool.false_eq_true, if_false] at h
        cases hsub : lookupClaim claims "sub" with
        | none => simp [hsub] at h
        | some jv =>
          cases jv with
          | null => simp [hsub] at h
          | int n => simp [hsub] at h
          | obj fs => simp [hsub] at h
          | str s =>
            simp only [hsub] at h
            cases hu : getUserByUsername s db with
            | none => simp [hu] at h
            | some u =>
              simp only [hu, Except.ok.injEq] at h
              have husername : u.username = s := by
                have hp := List.find?_some hu
                exact eq_of_beq hp
              refine ⟨u, ?_, ?_, ?_, ?_⟩
              · rw [husername]; exact hu
              · rw [← h]
              · rw [← h]; rfl
              · rw [← h]; rfl

/-- The response refresh produces for the seeded admin store at time 150. -/
def respSeed : RefreshResponse :=
  { access_token :=
      encodeAuthToken [ ("sub", JValue.str "admin") ]
        (some (ACCESS_TOKEN_EXPIRE_MINUTES * 60)) 150 "jA2"
    token_type := "Bearer" }

/-- The refresh token login issues for the seeded admin at time 100. -/
def refreshTokSeed : Token :=
  encodeRefreshToken [ ("sub", JValue.str "admin") ]
    (some (REFRESH_TOKEN_EXPIRE_DAYS * 86400)) 100 "jR"

/-- Witness for the amended C3 theorem at the seeded admin store. -/
theorem refresh_access_token_subject_only_witness :
    ∃ u : User,
      getUserByUsername u.username dbSeed = some u ∧
      respSeed.access_token =
        encodeAuthToken [ ("sub", JValue.str u.username) ]
          (some (ACCESS_TOKEN_EXPIRE_MINUTES * 60)) 150 "jA2" ∧
      lookupClaim (tokenClaims respSeed.access_token) "context" = none ∧
      lookupClaim (tokenClaims respSeed.access_token) "roles" = none :=
  refresh_access_token_subject_only refreshTokSeed dbSeed 150 "jA2" respSeed rfl

/-- Claims of an authentic but already-expired access token. -/
def expiredClaims : Claims :=
  [ ("sub", JValue.str "admin"), ("exp", JValue.int 50) ]

/-- Claim C4 counterexample: decoding is not expiry-blind.  The same
cryptographically authentic token (signed with the access secret) decodes
to its claims while unexpired, but decodes to None once its exp is in the
past, because the JWT library validates exp during decode by default. -/
theorem decode_checks_expiry_cex :
    decodeAuthToken (Token.signed expiredClaims ACCESS_SECRET_KEY) 50 =
      some expiredClaims ∧
    decodeAuthToken (Token.signed expiredClaims ACCESS_SECRET_KEY) 100 =
      none :=
  ⟨rfl, rfl⟩

/-- Claim C4 (amended): for every cryptographically authentic token whose
exp claim is strictly in the past, decode itself returns the invalid
sentinel (the library checks expiry during decode); expiry is therefore
enforced at the decode layer, not only by the validate caller. -/
theorem decode_rejects_expired (c : Claims) (secret : String) (e now : Int)
    (h₁ : lookupClaim c "exp" = some (JValue.int e)) (h₂ : e < now) :
    decodeToken (Token.signed c secret) secret now = none := by
  have hok : joseClaimsOk c now = false := by
    simp [joseClaimsOk, h₁, decide_eq_false (show ¬ now ≤ e by omega)]
  simp [decodeToken, hok]

/-- Witness for the amended C4 theorem at a concrete expired token. -/
theorem decode_rejects_expired_witness :
    decodeToken (Token.signed expiredClaims ACCESS_SECRET_KEY)
      ACCESS_SECRET_KEY 100 = none :=
  decode_rejects_expired expiredClaims ACCESS_SECRET_KEY 50 100 rfl
    (by norm_num)

/-- Claim C5 counterexample: an otherwise-valid access token whose exp
equals the current time is accepted, not rejected as Expired; and a token
whose exp is in the past is rejected with the generic
could-not-validate-credentials error, not with the Expired error. -/
theorem tokenValidation_boundary_cex :
    tokenValidation
        (Token.signed
          [ ("sub", JValue.str "admin"), ("exp", JValue.int 100),
            ("jti", JValue.str "j5") ] ACCESS_SECRET_KEY)
        ACCESS_TOKEN_TYPE 100 =
      Except.ok (some
        [ ("sub", JValue.str "admin"), ("exp", JValue.int 100),
          ("jti", JValue.str "j5") ]) ∧
    tokenValidation
        (Token.signed
          [ ("sub", JValue.str "admin"), ("exp", JValue.int 50),
            ("jti", JValue.str "j5") ] ACCESS_SECRET_KEY)
        ACCESS_TOKEN_TYPE 100 =
      Except.error (AuthError.http 401 COULD_NOT_VALIDATE_CREDENTIALS) :=
  ⟨rfl, rfl⟩

/-- Claim C5 (amended): both expiry comparisons are strict, so a token whose
exp equals the current time validates successfully; a token whose exp is
strictly in the past fails validation, but with the generic credentials
error raised when decode returns None (the library already rejects expired
tokens during decode), so the dedicated TOKEN_EXPIRED branch is not the one
that fires. -/
theorem tokenValidation_strict_boundary (u j : String) (e now : Int) :
    (e = now →
      tokenValidation
          (Token.signed
            [ ("sub", JValue.str u), ("exp", JValue.int e),
              ("jti", JValue.str j) ] ACCESS_SECRET_KEY)
          ACCESS_TOKEN_TYPE now =
        Except.ok (some
          [ ("sub", JValue.str u), ("exp", JValue.int e),
            ("jti", JValue.str j) ])) ∧
    (e < now →
      tokenValidation
          (Token.signed
            [ ("sub", JValue.str u), ("exp", JValue.int e),
              ("jti", JValue.str j) ] ACCESS_SECRET_KEY)
          ACCESS_TOKEN_TYPE now =
        Except.error (AuthError.http 401 COULD_NOT_VALIDATE_CREDENTIALS)) := by
  constructor
  · rintro rfl
    simp [tokenValidation, decodeAuthToken, decodeToken, joseClaimsOk,
      lookupClaim, lt_irrefl]
  · intro hlt
    simp [tokenValidation, decodeAuthToken, decodeToken, joseClaimsOk,
      lookupClaim, decide_eq_false (show ¬ now ≤ e by omega)]

/-- Witness for the amended C5 theorem at exp = now = 100 and at
exp = 50 < now = 100. -/
theorem tokenValidation_strict_boundary_witness :
    tokenValidation
        (Token.signed
          [ ("sub", JValue.str "admin"), ("exp", JValue.int 100),
            ("jti", JValue.str "j6") ] ACCESS_SECRET_KEY)
        ACCESS_TOKEN_TYPE 100 =
      Except.ok (some
        [ ("sub", JValue.str "admin"), ("exp", JValue.int 100),
          ("jti", JValue.str "j6") ]) ∧
    tokenValidation
        (Token.signed
          [ ("sub", JValue.str "admin"), ("exp", JValue.int 50),
            ("jti", JValue.str "j6") ] ACCESS_SECRET_KEY)
        ACCESS_TOKEN_TYPE 100 =
      Except.error (AuthError.http 401 COULD_NOT_VALIDATE_CREDENTIALS) :=
  ⟨(tokenValidation_strict_boundary "admin" "j6" 100 100).1 rfl,
   (tokenValidation_strict_boundary "admin" "j6" 50 100).2 (by norm_num)⟩

/-- Claim C6 counterexample: refresh tokens do not omit the jti claim — the
refresh-path encoder injects one exactly like the access path. -/
theorem refresh_token_contains_jti_cex :
    lookupClaim
        (tokenClaims
          (encodeRefreshToken [ ("sub", JValue.str "admin") ]
            (some 604800) 0 "jX")) "jti" =
      some (JValue.str "jX") :=
  rfl

/-- Claim C6 (amended): both encoding paths go through the same private
encoder, which always injects the fresh jti: access tokens and refresh
tokens alike carry a jti claim equal to the generated uuid. -/
theorem encode_injects_jti_both_paths (payload : Claims) (e? : Option Int)
    (now : Int) (j : String) :
    lookupClaim (tokenClaims (encodeAuthToken payload e? now j)) "jti" =
      some (JValue.str j) ∧
    lookupClaim (tokenClaims (encodeRefreshToken payload e? now j)) "jti" =
      some (JValue.str j) := by
  constructor <;>
    simp [encodeAuthToken, encodeRefreshToken, encodeToken, tokenClaims,
      lookupClaim_setClaim_self]

/-- Claim C7: login fails uniformly.  Whether the username is unknown to
the store or the password fails verification, login fails with the same
401 InvalidCredentials rejection — the two causes are indistinguishable in
the response. -/
theorem login_uniform_invalid_credentials (username password : String)
    (db : DB) (now : Int) (jA jR : String)
    (h : getUserByUsername username db = none ∨
      ∃ u, getUserByUsername username db = some u ∧
        verifyPassword password u.password = Except.ok false) :
    login username password db now jA jR =
      Except.error (AuthError.http 401 INVALID_CREDENTIALS) := by
  unfold login authenticateUser
  rcases h with h | ⟨u, hu, hv⟩
  · simp [h]
  · simp [hu, hv]

/-- Witness for C7: an unknown username and a wrong password for the seeded
admin produce the identical rejection. -/
theorem login_uniform_invalid_credentials_witness :
    login "ghost" "pw" dbSeed 0 "a" "b" =
      Except.error (AuthError.http 401 INVALID_CREDENTIALS) ∧
    login "admin" "wrong" dbSeed 0 "a" "b" =
      Except.error (AuthError.http 401 INVALID_CREDENTIALS) :=
  ⟨login_uniform_invalid_credentials "ghost" "pw" dbSeed 0 "a" "b"
      (Or.inl rfl),
   login_uniform_invalid_credentials "admin" "wrong" dbSeed 0 "a" "b"
      (Or.inr ⟨adminUser, rfl, rfl⟩)⟩

/-- The registration request used to exhibit the plaintext storage. -/
def newUserRequest : UserPOSTRequest :=
  { name := "New User"
    phone := 1234567890
    username := "new_user"
    userRole := some "COLLECTOR"
    password := "password123" }

/-- Claim C8: the spec requires the stored credential to be a bcrypt-family
hash of the submitted password, with verification succeeding afterwards.
The code stores the submitted plaintext verbatim (hashPassword is imported
but never called in register), the stored string is not a bcrypt hash, and
verifying the very password that was submitted raises UnknownHashError —
so authenticating the just-registered user also raises instead of
succeeding. -/
theorem register_stores_plaintext_password :
    ∃ u db₁,
      register newUserRequest dbEmpty = Except.ok (u, db₁) ∧
      u.password = "password123" ∧
      isBcryptHash u.password = false ∧
      verifyPassword "password123" u.password =
        Except.error AuthError.unknownHashError ∧
      authenticateUser "new_user" "password123" db₁ =
        Except.error AuthError.unknownHashError := by
  refine ⟨_, _, rfl, rfl, rfl, rfl, rfl⟩

/-- The integer value of the exp claim of a payload, when present. -/
def expOf (c : Claims) : Option Int :=
  match lookupClaim c "exp" with
  | some (JValue.int e) => some e
  | _ => none

/-- Claim C9 counterexample: the round trip does not recover every original
claim unchanged for every claims map — an exp (or jti) key already present
in the input is overwritten by the injected value before signing, so the
decoded payload disagrees with the original at that key. -/
theorem roundTrip_overwrites_exp_cex :
    decodeToken
        (encodeToken [ ("exp", JValue.int 5) ] "secret0" (some 1000) 0 "j0")
        "secret0" 0 =
      some [ ("exp", JValue.int 1000), ("jti", JValue.str "j0") ] ∧
    expOf [ ("exp", JValue.int 5) ] = some 5 ∧
    expOf [ ("exp", JValue.int 1000), ("jti", JValue.str "j0") ] =
      some 1000 ∧
    expOf [ ("exp", JValue.int 1000), ("jti", JValue.str "j0") ] ≠
      expOf [ ("exp", JValue.int 5) ] := by
  refine ⟨rfl, rfl, rfl, by decide⟩

/-- Claim C9 (amended): for every claims map that does not already use the
registered claim names consumed at decode time (exp and jti, which encode
overwrites, and aud/nbf/iat, which the library validates; any sub entry
must be a string), and any positive ttl, decoding the freshly encoded
token with the same secret at encoding time yields the original claims
plus the injected exp and jti, with every other claim unchanged. -/
theorem roundTrip_fresh_claims (claims : Claims) (secret : String)
    (ttl now : Int) (j : String)
    (_hexp : lookupClaim claims "exp" = none)
    (_hjti : lookupClaim claims "jti" = none)
    (haud : lookupClaim claims "aud" = none)
    (hnbf : lookupClaim claims "nbf" = none)
    (hiat : lookupClaim claims "iat" = none)
    (hsub : ∀ v, lookupClaim claims "sub" = some v → ∃ s, v = JValue.str s)
    (httl : 0 < ttl) :
    decodeToken (encodeToken claims secret (some ttl) now j) secret now =
      some (setClaim (setClaim claims "exp" (JValue.int (now + ttl)))
        "jti" (JValue.str j)) ∧
    (∀ k, k ≠ "exp" → k ≠ "jti" →
      lookupClaim
          (setClaim (setClaim claims "exp" (JValue.int (now + ttl)))
            "jti" (JValue.str j)) k =
        lookupClaim claims k) ∧
    lookupClaim
        (setClaim (setClaim claims "exp" (JValue.int (now + ttl)))
          "jti" (JValue.str j)) "exp" =
      some (JValue.int (now + ttl)) ∧
    lookupClaim
        (setClaim (setClaim claims "exp" (JValue.int (now + ttl)))
          "jti" (JValue.str j)) "jti" =
      some (JValue.str j) := by
  have hl_jti :
      lookupClaim
          (setClaim (setClaim claims "exp" (JValue.int (now + ttl)))
            "jti" (JValue.str j)) "jti" =
        some (JValue.str j) :=
    lookupClaim_setClaim_self _ _ _
  have hl_exp :
      lookupClaim
          (setClaim (setClaim claims "exp" (JValue.int (now + ttl)))
            "jti" (JValue.str j)) "exp" =
        some (JValue.int (now + ttl)) := by
    rw [lookupClaim_setClaim_ne _ _ _ _ (by decide)]
    exact lookupClaim_setClaim_self _ _ _
  have hl_other : ∀ k, k ≠ "exp" → k ≠ "jti" →
      lookupClaim
          (setClaim (setClaim claims "exp" (JValue.int (now + ttl)))
            "jti" (JValue.str j)) k =
        lookupClaim claims k := by
    intro k h₁ h₂
    rw [lookupClaim_setClaim_ne _ _ _ _ h₂, lookupClaim_setClaim_ne _ _ _ _ h₁]
  have hok :
      joseClaimsOk
          (setClaim (setClaim claims "exp" (JValue.int (now + ttl)))
            "jti" (JValue.str j)) now = true := by
    have hiat₂ := hl_other "iat" (by decide) (by decide)
    have hnbf₂ := hl_other "nbf" (by decide) (by decide)
    have haud₂ := hl_other "aud" (by decide) (by decide)
    have hsub₂ := hl_other "sub" (by decide) (by decide)
    rw [joseClaimsOk, hiat₂, hiat, hnbf₂, hnbf, haud₂, haud, hl_exp, hl_jti,
      hsub₂]
    cases hs : lookupClaim claims "sub" with
    | none =>
        simp [decide_eq_true (show now ≤ now + ttl by omega)]
        omega
    | some v =>
        obtain ⟨s, rfl⟩ := hsub v hs
        simp [decide_eq_true (show now ≤ now + ttl by omega)]
        omega
  refine ⟨?_, hl_other, hl_exp, hl_jti⟩
  simp only [encodeToken, decodeToken, show ¬ ttl = 0 by omega, if_false,
    if_pos rfl, hok, if_true]

/-- Witness for the amended C9 theorem: a sub-only payload round-trips to
itself plus the injected exp and jti. -/
theorem roundTrip_fresh_claims_witness :
    decodeToken
        (encodeToken [ ("sub", JValue.str "admin") ] "k0" (some 60) 0 "w0")
        "k0" 0 =
      some (setClaim
        (setClaim [ ("sub", JValue.str "admin") ] "exp" (JValue.int (0 + 60)))
        "jti" (JValue.str "w0")) :=
  (roundTrip_fresh_claims [ ("sub", JValue.str "admin") ] "k0" 60 0 "w0"
      rfl rfl rfl rfl rfl
      (by
        intro v hv
        simp [lookupClaim] at hv
        exact ⟨"admin", hv.symm⟩)
      (by norm_num)).1

/-- A user whose optional role field is None. -/
def roleNoneUser : User :=
  { name := "NoRole", phone := 0, username := "norole", userRole := none,
    password := "x" }

/-- A user holding only the collector role. -/
def collectorUser : User :=
  { name := "Collector", phone := 1234567890, username := "collector",
    userRole := some "COLLECTOR", password := hashPassword "collector" "s2" }

/-- Claim C10: the admin guard is total only on principals whose role field
is a string.  A None role raises AttributeError from splitting None; for a
string role the guard returns the principal exactly when the ADMIN label is
among the comma-separated parts, and otherwise fails with the 403
insufficient-permissions rejection. -/
theorem getCurrentAdmin_role_split (user : User) :
    (user.userRole = none →
      getCurrentAdmin user =
        Except.error
          (AuthError.attributeError "NoneType object has no attribute split")) ∧
    (∀ r, user.userRole = some r →
      (USER_ROLE_ADMIN ∈ splitComma r →
        getCurrentAdmin user = Except.ok user) ∧
      (USER_ROLE_ADMIN ∉ splitComma r →
        getCurrentAdmin user =
          Except.error (AuthError.http 403 INSUFFICIENT_PERMISSIONS))) := by
  refine ⟨?_, ?_⟩
  · intro h
    simp [getCurrentAdmin, h]
  · intro r hr
    refine ⟨fun hm => ?_, fun hm => ?_⟩ <;> simp [getCurrentAdmin, hr, hm]

/-- Witness for C10 at the three role shapes: None role, a role list
containing ADMIN, and a role list without ADMIN. -/
theorem getCurrentAdmin_role_split_witness :
    getCurrentAdmin roleNoneUser =
      Except.error
        (AuthError.attributeError "NoneType object has no attribute split") ∧
    getCurrentAdmin adminUser = Except.ok adminUser ∧
    getCurrentAdmin collectorUser =
      Except.error (AuthError.http 403 INSUFFICIENT_PERMISSIONS) :=
  ⟨(getCurrentAdmin_role_split roleNoneUser).1 rfl,
   ((getCurrentAdmin_role_split adminUser).2 "ADMIN,COLLECTOR" rfl).1
      (by decide),
   ((getCurrentAdmin_role_split collectorUser).2 "COLLECTOR" rfl).2
      (by decide)⟩

end TaxBackend
